import Mathlib

/-!
Shallow embedding of the enemy-encounter / collision-to-quiz core of the
2D action quiz game (Phaser), for checking the natural-language
specification against the code.

Embedded source files:
* src/features/player/Player.ts (the state-machine player)
* src/core/systems/CollisionSystem.ts (the collision dispatcher)
* src/features/quiz/QuizDataManager.ts (question pool; unnamed part_017)
* src/scenes/QuizScene.ts (quiz flow controller, first variant in the file)
* src/features/enemies/ai/WanderController.ts and its documented variant
  (unnamed part_004)
* the orchestrator step GameScene.handleQuizResult from the
  state-machine variant (unnamed part_023)

Numbers are modelled as integers (health/damage amounts as Nat,
coordinates as Int); rendering, tweens and physics-body side effects are
outside the model.  Randomness (Math.random-based index selection) is
modelled by an explicit oracle argument reduced modulo the list length,
which matches Math.floor(Math.random() * length) always landing in
[0, length).
-/

/-- PlayerState enum from src/features/player/Player.ts. -/
inductive PlayerState where
  | NORMAL
  | INVINCIBLE
  | DEAD
deriving DecidableEq, Repr

/-- INVINCIBILITY_DURATION constant (ms) from src/features/player/Player.ts. -/
def INVINCIBILITY_DURATION : Nat := 3000

/-- PLAYER_MAX_HEALTH constant from src/features/player/Player.ts. -/
def PLAYER_MAX_HEALTH : Nat := 2

/-- PLAYER_INITIAL_HEALTH constant from src/features/player/Player.ts. -/
def PLAYER_INITIAL_HEALTH : Nat := 1

/-- The observable state of the Player entity from
src/features/player/Player.ts: health, maxHealth, the state enum and the
pending one-shot invincibility timer (remaining delay in ms, none when
no timer is pending).  Rendering fields (alpha, animations) are not
modelled. -/
structure Player where
  health : Nat
  maxHealth : Nat
  state : PlayerState
  invincibleTimer : Option Nat
deriving DecidableEq, Repr

/-- Notifications emitted by the player entity (the emit calls in
src/features/player/Player.ts). -/
inductive PlayerEvent where
  | stateChanged (newState oldState : PlayerState)
deriving DecidableEq, Repr

/-- Player.transitionToState from src/features/player/Player.ts.  A
transition to the current state is ignored; leaving INVINCIBLE destroys
the pending timer; entering INVINCIBLE arms a one-shot timer with delay
`data?.duration || INVINCIBILITY_DURATION` (JS: a 0 duration is falsy and
falls back to the default); every effective transition emits one
state-changed event. -/
def Player.transitionToState (p : Player) (newState : PlayerState)
    (durationData : Option Nat) : Player × List PlayerEvent :=
  if p.state = newState then (p, [])
  else
    let cleaned : Player :=
      match p.state with
      | .INVINCIBLE => { p with invincibleTimer := none }
      | _ => p
    let oldState := p.state
    let entered : Player :=
      match newState with
      | .INVINCIBLE =>
          { cleaned with
            state := newState,
            invincibleTimer := some (match durationData with
              | some d => if d = 0 then INVINCIBILITY_DURATION else d
              | none => INVINCIBILITY_DURATION) }
      | _ => { cleaned with state := newState }
    (entered, [PlayerEvent.stateChanged newState oldState])

/-- Player.heal from src/features/player/Player.ts:
health = min(health + amount, maxHealth).  There is no state guard in the
source. -/
def Player.heal (p : Player) (amount : Nat) : Player :=
  { p with health := min (p.health + amount) p.maxHealth }

/-- Player.damage from src/features/player/Player.ts: a no-op when the
state is DEAD or INVINCIBLE; otherwise health = max(health - amount, 0)
(Nat subtraction), with a forced transition to DEAD when health reaches
zero. -/
def Player.damage (p : Player) (amount : Nat) : Player × List PlayerEvent :=
  if p.state = .DEAD ∨ p.state = .INVINCIBLE then (p, [])
  else
    let p1 : Player := { p with health := p.health - amount }
    if p1.health = 0 then p1.transitionToState .DEAD none
    else (p1, [])

/-- Elapse `delta` ms of the Phaser clock for the pending one-shot
invincibility timer set in Player.transitionToState: when the delay has
fully elapsed the timer fires its callback transitionToState(NORMAL);
otherwise the remaining delay decreases. -/
def Player.advanceTime (p : Player) (delta : Nat) : Player × List PlayerEvent :=
  match p.invincibleTimer with
  | none => (p, [])
  | some rem =>
      if rem ≤ delta then
        let expired : Player := { p with invincibleTimer := none }
        expired.transitionToState .NORMAL none
      else ({ p with invincibleTimer := some (rem - delta) }, [])

/-- A freshly created player from the Player constructor in
src/features/player/Player.ts: health = PLAYER_INITIAL_HEALTH,
maxHealth = PLAYER_MAX_HEALTH, state NORMAL, no timer. -/
def freshPlayer : Player :=
  { health := PLAYER_INITIAL_HEALTH
    maxHealth := PLAYER_MAX_HEALTH
    state := .NORMAL
    invincibleTimer := none }

/-- One call in a heal/damage call sequence on the player. -/
inductive PlayerOp where
  | heal (amount : Nat)
  | damage (amount : Nat)
deriving DecidableEq, Repr

/-- Apply one heal/damage call to the player. -/
def Player.applyOp (p : Player) (op : PlayerOp) : Player :=
  match op with
  | .heal a => p.heal a
  | .damage a => (p.damage a).1

/-- Run a sequence of heal/damage calls starting from a freshly created
player. -/
def runOps (ops : List PlayerOp) : Player :=
  ops.foldl Player.applyOp freshPlayer

/-- GameScene.handleQuizResult (incorrect-answer branch) from the
state-machine GameScene variant (unnamed part_023): the player takes 1
damage and, when not dead afterwards, transitions to INVINCIBLE with the
default duration. -/
def handleQuizResultIncorrect (p : Player) : Player × List PlayerEvent :=
  let r1 := p.damage 1
  if r1.1.state ≠ .DEAD then
    let r2 := r1.1.transitionToState .INVINCIBLE none
    (r2.1, r1.2 ++ r2.2)
  else r1

/-- Semantic events emitted by the collision dispatcher
(src/core/systems/CollisionSystem.ts).  Enemies are identified by a
numeric id; the enemy-collided payload carries the player object and the
enemy. -/
inductive CollisionEvent where
  | coinCollected (coin : Nat)
  | enemyCollided (player : Player) (enemy : Nat)
  | heartCollected (heart : Nat)
  | keyCollected (key : Nat)
  | castleCollided (castle : Nat)
deriving DecidableEq, Repr

/-- CollisionSystem.handlePlayerEnemyCollision from
src/core/systems/CollisionSystem.ts: when the player is DEAD or
INVINCIBLE nothing is emitted; otherwise exactly one enemy-collided
event carrying the player and the enemy is emitted. -/
def handlePlayerEnemyCollision (player : Player) (enemy : Nat) :
    List CollisionEvent :=
  if player.state = .DEAD ∨ player.state = .INVINCIBLE then []
  else [CollisionEvent.enemyCollided player enemy]

/-- One quiz record, the QuizData interface shared by QuizScene.ts and
QuizDataManager (unnamed part_017).  The display-only source_chunk and
source_metadata fields are not modelled. -/
structure QuizData where
  question : String
  choices : List String
  answer : String
  category : Option String
deriving DecidableEq, Repr

/-- QuizDataManager from src/features/quiz/QuizDataManager.ts (unnamed
part_017): the full filtered question set and the mutable pool of
questions not yet drawn. -/
structure QuizDataManager where
  quizData : List QuizData
  availableQuestions : List QuizData
deriving DecidableEq, Repr

/-- QuizDataManager.getRandomQuestion from unnamed part_017: when the
pool is empty it is first reset to the full set; an empty set yields
none; otherwise a question at a random index is removed from the pool
(splice) and returned.  The random index
Math.floor(Math.random() * length) is modelled by the oracle `r` reduced
mod the pool length, and splice(i, 1) by take i ++ drop (i+1). -/
def QuizDataManager.getRandomQuestion (m : QuizDataManager) (r : Nat) :
    Option QuizData × QuizDataManager :=
  let avail := if m.availableQuestions = [] then m.quizData
               else m.availableQuestions
  if avail = [] then
    (none, { quizData := m.quizData, availableQuestions := avail })
  else
    let i := r % avail.length
    (avail.get? i,
     { quizData := m.quizData,
       availableQuestions := avail.take i ++ avail.drop (i + 1) })

/-- Repeated getRandomQuestion calls, one oracle value per draw,
threading the manager state and collecting the drawn questions. -/
def QuizDataManager.drawMany (m : QuizDataManager) (rs : List Nat) :
    List (Option QuizData) × QuizDataManager :=
  match rs with
  | [] => ([], m)
  | r :: rest =>
      let d := m.getRandomQuestion r
      let ds := d.2.drawMany rest
      (d.1 :: ds.1, ds.2)

/-- QuizState enum from src/scenes/QuizScene.ts. -/
inductive QuizState where
  | LOADING
  | QUESTION
  | RESULT
  | CLOSING
deriving DecidableEq, Repr

/-- The quiz-completed event emitted to the return scene by
QuizScene.closeQuiz and QuizScene.safeExit. -/
inductive QuizEvent where
  | quizCompleted (isCorrect : Bool)
deriving DecidableEq, Repr

/-- Observable state of QuizScene (first variant in
src/scenes/QuizScene.ts): flow state, the input lock, the correctness
flag, the filtered question list, the selected question, and whether
scene.stop() has run.  UI objects are not modelled. -/
structure QuizSceneM where
  currentState : QuizState
  inputLocked : Bool
  isCorrect : Bool
  quizData : List QuizData
  currentQuestion : Option QuizData
  stopped : Bool
deriving DecidableEq, Repr

/-- QuizScene state right after init(data): LOADING, unlocked, not
correct, empty data, no question, running. -/
def initQuizScene : QuizSceneM :=
  { currentState := .LOADING
    inputLocked := false
    isCorrect := false
    quizData := []
    currentQuestion := none
    stopped := false }

/-- QuizScene.loadAndValidateQuizData from src/scenes/QuizScene.ts:
`raw = none` stands for missing or non-array cache data (the source
returns false); otherwise the list is filtered by category (the general
category also admits uncategorized questions); zero remaining questions
is a failure.  Returns the success flag together with the resulting
quizData list. -/
def loadAndValidateQuizData (raw : Option (List QuizData))
    (category : Option String) : Bool × List QuizData :=
  match raw with
  | none => (false, [])
  | some data =>
      let filtered :=
        match category with
        | some c =>
            data.filter (fun item =>
              (item.category == some c) ||
              ((c == "general") && (item.category == none)))
        | none => data
      if filtered = [] then (false, filtered) else (true, filtered)

/-- QuizScene.safeExit from src/scenes/QuizScene.ts: emit
quiz-completed(false) when the scene lookup for returnSceneKey succeeds
(`targetExists`), then stop the scene.  The flow state is not changed. -/
def QuizScene.safeExit (s : QuizSceneM) (targetExists : Bool) :
    QuizSceneM × List QuizEvent :=
  ({ s with stopped := true },
   if targetExists then [QuizEvent.quizCompleted false] else [])

/-- QuizScene.closeQuiz from src/scenes/QuizScene.ts: a no-op when
already CLOSING; otherwise enter CLOSING, emit quiz-completed(isCorrect)
when the scene lookup for returnSceneKey succeeds, and stop the scene. -/
def QuizScene.closeQuiz (s : QuizSceneM) (targetExists : Bool) :
    QuizSceneM × List QuizEvent :=
  if s.currentState = .CLOSING then (s, [])
  else
    ({ s with currentState := .CLOSING, stopped := true },
     if targetExists then [QuizEvent.quizCompleted s.isCorrect] else [])

/-- QuizScene.create from src/scenes/QuizScene.ts: on load/validation
failure run safeExit and return; otherwise store the filtered data,
select a random question (selectRandomQuestion, oracle `r` reduced mod
the list length) and show it, entering QUESTION. -/
def QuizScene.create (raw : Option (List QuizData)) (category : Option String)
    (targetExists : Bool) (r : Nat) : QuizSceneM × List QuizEvent :=
  let s := initQuizScene
  let loaded := loadAndValidateQuizData raw category
  if loaded.1 = false then QuizScene.safeExit s targetExists
  else
    let s1 : QuizSceneM := { s with quizData := loaded.2 }
    let q := loaded.2.get? (r % loaded.2.length)
    match q with
    | some _ =>
        ({ s1 with currentQuestion := q, currentState := .QUESTION }, [])
    | none => ({ s1 with currentQuestion := q }, [])

/-- A rectangle in Phaser.Geom.Rectangle convention: left = x,
right = x + width, top = y, bottom = y + height.  Coordinates are
modelled as integers. -/
structure Rect where
  x : Int
  y : Int
  width : Int
  height : Int
deriving DecidableEq, Repr

/-- Left edge of a rectangle. -/
def Rect.left (b : Rect) : Int := b.x

/-- Right edge of a rectangle. -/
def Rect.right (b : Rect) : Int := b.x + b.width

/-- Top edge of a rectangle. -/
def Rect.top (b : Rect) : Int := b.y

/-- Bottom edge of a rectangle. -/
def Rect.bottom (b : Rect) : Int := b.y + b.height

/-- WanderController.isOutOfBounds as written in
src/features/enemies/ai/WanderController.ts: it compares the single
position point (enemy.x, enemy.y) against the bounds rectangle. -/
def isOutOfBoundsPoint (bounds : Rect) (ex ey : Int) : Bool :=
  decide (ex < bounds.left) || decide (ex > bounds.right) ||
  decide (ey < bounds.top) || decide (ey > bounds.bottom)

/-- WanderController.isOutOfBounds as written in the documented variant
(unnamed part_004): it compares the full sprite bounding box
enemy.getBounds() against the bounds rectangle. -/
def isOutOfBoundsBox (bounds : Rect) (enemyBox : Rect) : Bool :=
  decide (enemyBox.left < bounds.left) ||
  decide (enemyBox.right > bounds.right) ||
  decide (enemyBox.top < bounds.top) ||
  decide (enemyBox.bottom > bounds.bottom)

/-- Modelled from the spec: the out-of-bounds notion the spec sentence
describes, namely that some edge of the enemy bounding box crosses the
bounds rectangle.  Stated as a proposition for comparison with the two
isOutOfBounds implementations. -/
def edgeCrossesBounds (bounds : Rect) (enemyBox : Rect) : Prop :=
  enemyBox.left < bounds.left ∨ enemyBox.right > bounds.right ∨
  enemyBox.top < bounds.top ∨ enemyBox.bottom > bounds.bottom

instance (bounds enemyBox : Rect) :
    Decidable (edgeCrossesBounds bounds enemyBox) := by
  unfold edgeCrossesBounds
  exact inferInstance

/-- The invariant maintained by heal/damage on the player: health never
exceeds maxHealth, and a player at zero health is DEAD. -/
def PlayerInv (p : Player) : Prop :=
  p.health ≤ p.maxHealth ∧ (p.health = 0 → p.state = .DEAD)

/-- C1: for every overlap between the player and an enemy delivered to
CollisionSystem.handlePlayerEnemyCollision, a DEAD or INVINCIBLE player
suppresses dispatch entirely (zero events); otherwise exactly one
enemy-collided event carrying the player and the enemy is emitted. -/
theorem collisionGuard_suppresses_or_emits_once (p : Player) (e : Nat) :
    ((p.state = .DEAD ∨ p.state = .INVINCIBLE) →
      handlePlayerEnemyCollision p e = []) ∧
    (p.state ≠ .DEAD ∧ p.state ≠ .INVINCIBLE →
      handlePlayerEnemyCollision p e = [CollisionEvent.enemyCollided p e]) := by
  constructor
  · intro h
    unfold handlePlayerEnemyCollision
    rw [if_pos h]
  · intro h
    unfold handlePlayerEnemyCollision
    rw [if_neg (not_or.mpr h)]

/-- Witness for C1 at concrete players: a DEAD player suppresses the
event, a NORMAL player yields exactly the one enemy-collided event. -/
theorem collisionGuard_suppresses_or_emits_once_witness :
    handlePlayerEnemyCollision
      { health := 1, maxHealth := 2, state := .DEAD, invincibleTimer := none } 7 = [] ∧
    handlePlayerEnemyCollision
      { health := 1, maxHealth := 2, state := .NORMAL, invincibleTimer := none } 7 =
    [CollisionEvent.enemyCollided
      { health := 1, maxHealth := 2, state := .NORMAL, invincibleTimer := none } 7] :=
  ⟨(collisionGuard_suppresses_or_emits_once _ 7).1 (Or.inl rfl),
   (collisionGuard_suppresses_or_emits_once _ 7).2 ⟨by decide, by decide⟩⟩

/-- C2: for every positive amount, Player.damage called on an INVINCIBLE
player is a no-op: the player (health and state included) is unchanged
and nothing is emitted. -/
theorem damage_noop_when_invincible (p : Player) (amount : Nat)
    (hs : p.state = .INVINCIBLE) (ha : 0 < amount) :
    p.damage amount = (p, []) := by
  unfold Player.damage
  rw [if_pos (Or.inr hs)]

/-- Witness for C2: an INVINCIBLE player taking damage 1 is unchanged. -/
theorem damage_noop_when_invincible_witness :
    0 < 1 ∧
    Player.damage
      { health := 1, maxHealth := 2, state := .INVINCIBLE, invincibleTimer := some 3000 } 1 =
    ({ health := 1, maxHealth := 2, state := .INVINCIBLE, invincibleTimer := some 3000 }, []) :=
  ⟨by decide, damage_noop_when_invincible _ 1 rfl (by decide)⟩

/-- transitionToState never changes health or maxHealth. -/
theorem transitionToState_health (p : Player) (ns : PlayerState)
    (d : Option Nat) :
    (p.transitionToState ns d).1.health = p.health ∧
    (p.transitionToState ns d).1.maxHealth = p.maxHealth := by
  unfold Player.transitionToState
  by_cases h : p.state = ns
  · rw [if_pos h]; exact ⟨rfl, rfl⟩
  · rw [if_neg h]
    cases hp : p.state <;> cases hn : ns <;> simp

/-- transitionToState reaches the requested state whenever it differs
from the current one. -/
theorem transitionToState_state (p : Player) (ns : PlayerState)
    (d : Option Nat) (h : p.state ≠ ns) :
    (p.transitionToState ns d).1.state = ns := by
  unfold Player.transitionToState
  rw [if_neg h]
  cases hp : p.state <;> cases hn : ns <;> simp

/-- Player.heal does not change the state or maxHealth. -/
theorem heal_state (p : Player) (a : Nat) :
    (p.heal a).state = p.state ∧ (p.heal a).maxHealth = p.maxHealth :=
  ⟨rfl, rfl⟩

/-- One heal/damage call preserves the player invariant. -/
theorem applyOp_preserves_inv (p : Player) (op : PlayerOp)
    (h : PlayerInv p) : PlayerInv (p.applyOp op) := by
  obtain ⟨hle, hz⟩ := h
  cases op with
  | heal a =>
      show PlayerInv (p.heal a)
      constructor
      · show (p.heal a).health ≤ (p.heal a).maxHealth
        exact min_le_right _ _
      · intro h0
        have h0' : min (p.health + a) p.maxHealth = 0 := h0
        have hor : p.health + a = 0 ∨ p.maxHealth = 0 :=
          Nat.min_eq_zero_iff.mp h0'
        have hph : p.health = 0 := by
          rcases hor with h1 | h1
          · omega
          · omega
        show (p.heal a).state = .DEAD
        rw [(heal_state p a).1]
        exact hz hph
  | damage a =>
      show PlayerInv (p.damage a).1
      unfold Player.damage
      by_cases hg : p.state = .DEAD ∨ p.state = .INVINCIBLE
      · rw [if_pos hg]; exact ⟨hle, hz⟩
      · rw [if_neg hg]
        have hnd : p.state ≠ .DEAD := (not_or.mp hg).1
        set p1 : Player := { p with health := p.health - a } with hp1
        have hs1 : p1.state = p.state := rfl
        by_cases h0 : p1.health = 0
        · rw [if_pos h0]
          have hh := (transitionToState_health p1 .DEAD none).1
          have hm := (transitionToState_health p1 .DEAD none).2
          have hst : (p1.transitionToState .DEAD none).1.state = .DEAD :=
            transitionToState_state p1 .DEAD none (by rw [hs1]; exact hnd)
          constructor
          · rw [hh, hm, h0]
            exact Nat.zero_le _
          · intro _
            exact hst
        · rw [if_neg h0]
          constructor
          · show p.health - a ≤ p.maxHealth
            exact le_trans (Nat.sub_le _ _) hle
          · intro hc
            exact absurd hc h0

/-- The player invariant is preserved along any heal/damage call
sequence. -/
theorem foldl_preserves_inv (ops : List PlayerOp) (p : Player)
    (h : PlayerInv p) : PlayerInv (ops.foldl Player.applyOp p) := by
  induction ops generalizing p with
  | nil => exact h
  | cons op rest ih =>
      exact ih (p.applyOp op) (applyOp_preserves_inv p op h)

/-- C3: after any sequence of heal/damage calls on a freshly created
player, health stays within 0..maxHealth, and whenever health is 0 the
state is DEAD. -/
theorem player_health_invariant (ops : List PlayerOp) :
    0 ≤ (runOps ops).health ∧
    (runOps ops).health ≤ (runOps ops).maxHealth ∧
    ((runOps ops).health = 0 → (runOps ops).state = .DEAD) := by
  have h0 : PlayerInv freshPlayer := by
    constructor
    · decide
    · intro h
      exact absurd h (by decide)
  have h := foldl_preserves_inv ops freshPlayer h0
  exact ⟨Nat.zero_le _, h.1, h.2⟩

/-- Witness for C3: the single call damage(1) on a fresh player brings
health to 0 and the invariant forces the DEAD state there. -/
theorem player_health_invariant_witness :
    (runOps [PlayerOp.damage 1]).state = .DEAD :=
  (player_health_invariant [PlayerOp.damage 1]).2.2 (by decide)

/-- Counterexample to C4: a DEAD player at health 0 whose heal(1) call
changes health to 1, because Player.heal has no DEAD guard in the
source.  The concrete input is the player record shown and amount 1. -/
theorem dead_player_heal_changes_health :
    ({ health := 0, maxHealth := 2, state := .DEAD,
       invincibleTimer := none } : Player).state = .DEAD ∧
    (Player.heal
      { health := 0, maxHealth := 2, state := .DEAD,
        invincibleTimer := none } 1).health = 1 ∧
    (Player.heal
      { health := 0, maxHealth := 2, state := .DEAD,
        invincibleTimer := none } 1).health ≠
    ({ health := 0, maxHealth := 2, state := .DEAD,
       invincibleTimer := none } : Player).health := by
  decide

/-- C4 amended: once the state is DEAD, damage calls change nothing and
emit nothing, and no heal or damage call re-triggers a state transition
(the state stays DEAD and no state-changed event is emitted); heal,
however, still clamps health to min(health + amount, maxHealth)
regardless of the DEAD state. -/
theorem dead_player_damage_noop_heal_clamps (p : Player) (amount : Nat)
    (h : p.state = .DEAD) :
    p.damage amount = (p, []) ∧
    (p.heal amount).state = .DEAD ∧
    (p.heal amount).health = min (p.health + amount) p.maxHealth := by
  refine ⟨?_, ?_, rfl⟩
  · unfold Player.damage
    rw [if_pos (Or.inl h)]
  · rw [(heal_state p amount).1]
    exact h

/-- Witness for the amended C4 at a concrete DEAD player. -/
theorem dead_player_damage_noop_heal_clamps_witness :
    Player.damage
      { health := 0, maxHealth := 2, state := .DEAD, invincibleTimer := none } 1 =
      ({ health := 0, maxHealth := 2, state := .DEAD, invincibleTimer := none }, []) ∧
    (Player.heal
      { health := 0, maxHealth := 2, state := .DEAD, invincibleTimer := none } 1).state = .DEAD :=
  ⟨(dead_player_damage_noop_heal_clamps _ 1 rfl).1,
   (dead_player_damage_noop_heal_clamps _ 1 rfl).2.1⟩

/-- C9: a player with health 2 and maxHealth 2 answering a quiz
incorrectly (the GameScene.handleQuizResult incorrect branch: damage(1)
followed by the INVINCIBLE transition) ends at health 1 in INVINCIBLE
with the 3000 ms timer armed; 500 ms later the window is still open and
a second damage(1) changes nothing. -/
theorem quiz_damage_invincibility_window :
    (handleQuizResultIncorrect
      { health := 2, maxHealth := 2, state := .NORMAL,
        invincibleTimer := none }).1 =
      { health := 1, maxHealth := 2, state := .INVINCIBLE,
        invincibleTimer := some 3000 } ∧
    (Player.advanceTime
      { health := 1, maxHealth := 2, state := .INVINCIBLE,
        invincibleTimer := some 3000 } 500).1 =
      { health := 1, maxHealth := 2, state := .INVINCIBLE,
        invincibleTimer := some 2500 } ∧
    (Player.damage
      { health := 1, maxHealth := 2, state := .INVINCIBLE,
        invincibleTimer := some 2500 } 1).1 =
      { health := 1, maxHealth := 2, state := .INVINCIBLE,
        invincibleTimer := some 2500 } := by
  decide

/-- C6: when loading/filtering the question bank yields zero questions,
QuizScene.create takes the safeExit path: exactly one
quiz-completed(false) event is emitted to the (existing) return target,
the scene stops, and the flow state never leaves LOADING (in particular
QUESTION and RESULT are never entered). -/
theorem quiz_empty_bank_safe_exit (raw : Option (List QuizData))
    (category : Option String) (r : Nat)
    (h : (loadAndValidateQuizData raw category).2 = []) :
    (QuizScene.create raw category true r).2 =
      [QuizEvent.quizCompleted false] ∧
    (QuizScene.create raw category true r).1.currentState = .LOADING ∧
    (QuizScene.create raw category true r).1.stopped = true := by
  have hfail : (loadAndValidateQuizData raw category).1 = false := by
    unfold loadAndValidateQuizData at h ⊢
    cases raw with
    | none => rfl
    | some data =>
        dsimp only at h ⊢
        split at h
        next heq => rw [if_pos heq]
        next hneq => exact absurd h hneq
  unfold QuizScene.create QuizScene.safeExit
  rw [if_pos hfail]
  exact ⟨rfl, rfl, rfl⟩

/-- Witness for C6: a present but empty question bank. -/
theorem quiz_empty_bank_safe_exit_witness :
    (QuizScene.create (some []) none true 0).2 =
      [QuizEvent.quizCompleted false] ∧
    (QuizScene.create (some []) none true 0).1.currentState = .LOADING ∧
    (QuizScene.create (some []) none true 0).1.stopped = true :=
  quiz_empty_bank_safe_exit (some []) none 0 (by decide)

/-- C7: from the RESULT state, the first closeQuiz call emits exactly
one quiz-completed event and the second call is a silent no-op, so two
invocations emit exactly one event in total. -/
theorem quiz_close_idempotent (s : QuizSceneM)
    (h : s.currentState = .RESULT) :
    (QuizScene.closeQuiz s true).2 = [QuizEvent.quizCompleted s.isCorrect] ∧
    (QuizScene.closeQuiz (QuizScene.closeQuiz s true).1 true).2 = [] ∧
    (QuizScene.closeQuiz (QuizScene.closeQuiz s true).1 true).1 =
      (QuizScene.closeQuiz s true).1 ∧
    (QuizScene.closeQuiz s true).2 ++
      (QuizScene.closeQuiz (QuizScene.closeQuiz s true).1 true).2 =
      [QuizEvent.quizCompleted s.isCorrect] := by
  have hne : s.currentState ≠ .CLOSING := by rw [h]; decide
  unfold QuizScene.closeQuiz
  rw [if_neg hne]
  simp

/-- Witness for C7 at a concrete RESULT-state scene. -/
theorem quiz_close_idempotent_witness :
    (QuizScene.closeQuiz
      { currentState := .RESULT, inputLocked := true, isCorrect := true,
        quizData := [], currentQuestion := none, stopped := false } true).2 =
      [QuizEvent.quizCompleted true] :=
  (quiz_close_idempotent _ rfl).1

/-- C10: in both closeQuiz and safeExit the quiz-completed event is
emitted only when the scene lookup for returnSceneKey succeeds; when it
fails the scene still stops, but no completion event is emitted at all,
so the result is silently dropped. -/
theorem quiz_completed_requires_target (s : QuizSceneM)
    (h : s.currentState ≠ .CLOSING) :
    (QuizScene.safeExit s false).2 = [] ∧
    (QuizScene.safeExit s false).1.stopped = true ∧
    (QuizScene.closeQuiz s false).2 = [] ∧
    (QuizScene.closeQuiz s false).1.stopped = true ∧
    (QuizScene.safeExit s true).2 = [QuizEvent.quizCompleted false] ∧
    (QuizScene.closeQuiz s true).2 =
      [QuizEvent.quizCompleted s.isCorrect] := by
  unfold QuizScene.safeExit QuizScene.closeQuiz
  rw [if_neg h, if_neg h]
  exact ⟨rfl, rfl, rfl, rfl, rfl, rfl⟩

/-- Witness for C10 at a concrete RESULT-state scene. -/
theorem quiz_completed_requires_target_witness :
    (QuizScene.closeQuiz
      { currentState := .RESULT, inputLocked := true, isCorrect := false,
        quizData := [], currentQuestion := none, stopped := false } false).2 = [] :=
  (quiz_completed_requires_target _ (by decide)).2.2.1

/-- Counterexample to C8: with bounds x 0 y 0 width 200 height 100 and
an enemy whose 32 by 32 bounding box is x 183 y 34 (so its position
point, the box center, is at 199 50), the box right edge 215 has crossed
the bounds right edge 200, yet isOutOfBounds of
src/features/enemies/ai/WanderController.ts, which tests only the
position point, reports false. -/
theorem wander_point_variant_misses_box_crossing :
    edgeCrossesBounds
      { x := 0, y := 0, width := 200, height := 100 }
      { x := 183, y := 34, width := 32, height := 32 } ∧
    isOutOfBoundsPoint
      { x := 0, y := 0, width := 200, height := 100 } 199 50 = false := by
  decide

/-- C8 amended: only the documented WanderController variant (unnamed
part_004) tests the full bounding box; its isOutOfBounds returns true
exactly when some edge of the enemy bounding box crosses the bounds
rectangle.  The variant in src/features/enemies/ai/WanderController.ts
tests only the position point and misses crossings of the box edges. -/
theorem wander_box_variant_uses_bounding_box (bounds enemyBox : Rect) :
    isOutOfBoundsBox bounds enemyBox = true ↔
    edgeCrossesBounds bounds enemyBox := by
  unfold isOutOfBoundsBox edgeCrossesBounds
  simp [or_assoc]

/-- Witness for the amended C8: the bounding box of the counterexample
enemy is detected as out of bounds by the box-based variant. -/
theorem wander_box_variant_uses_bounding_box_witness :
    isOutOfBoundsBox
      { x := 0, y := 0, width := 200, height := 100 }
      { x := 183, y := 34, width := 32, height := 32 } = true :=
  (wander_box_variant_uses_bounding_box _ _).mpr (by decide)

/-- getRandomQuestion never changes the full question set. -/
theorem getRandomQuestion_quizData (m : QuizDataManager) (r : Nat) :
    (m.getRandomQuestion r).2.quizData = m.quizData := by
  unfold QuizDataManager.getRandomQuestion
  dsimp only
  split
  · split <;> rfl
  · rfl


/-- When the pool is nonempty, getRandomQuestion returns some question
and the returned question consed onto the new pool is a permutation of
the old pool: the draw removes exactly the drawn question. -/
theorem getRandomQuestion_perm (m : QuizDataManager) (r : Nat)
    (h : m.availableQuestions ≠ []) :
    ∃ q, (m.getRandomQuestion r).1 = some q ∧
      (q :: (m.getRandomQuestion r).2.availableQuestions).Perm
        m.availableQuestions := by
  unfold QuizDataManager.getRandomQuestion
  simp only [if_neg h]
  set l := m.availableQuestions with hl
  set i := r % l.length with hi
  have hilt : i < l.length := Nat.mod_lt _ (List.length_pos.mpr h)
  refine ⟨l.get ⟨i, hilt⟩, List.get?_eq_get hilt, ?_⟩
  have h2 : l.get ⟨i, hilt⟩ :: l.drop (i + 1) = l.drop i :=
    List.get_cons_drop l ⟨i, hilt⟩
  have h3 : l.take i ++ (l.get ⟨i, hilt⟩ :: l.drop (i + 1)) = l := by
    rw [h2, List.take_append_drop]
  conv_rhs => rw [← h3]
  exact List.perm_middle.symm

/-- Drawing as many times as the pool holds questions empties the pool,
keeps the full set, and the drawn questions are exactly the pool
contents in some order. -/
theorem drawMany_exhausts (rs : List Nat) :
    ∀ m : QuizDataManager,
    m.availableQuestions.length = rs.length →
    (m.drawMany rs).2.quizData = m.quizData ∧
    (m.drawMany rs).2.availableQuestions = [] ∧
    ∃ vs : List QuizData, (m.drawMany rs).1 = vs.map some ∧
      vs.Perm m.availableQuestions := by
  induction rs with
  | nil =>
      intro m h
      have hav : m.availableQuestions = [] := List.eq_nil_of_length_eq_zero h
      exact ⟨rfl, hav, [], rfl, by rw [hav]⟩
  | cons r rest ih =>
      intro m h
      have hne : m.availableQuestions ≠ [] := by
        intro he
        rw [he] at h
        exact absurd h.symm (Nat.succ_ne_zero _)
      obtain ⟨q, hq, hperm⟩ := getRandomQuestion_perm m r hne
      have hlen : (m.getRandomQuestion r).2.availableQuestions.length =
          rest.length := by
        have hpl := hperm.length_eq
        simp only [List.length_cons] at hpl
        simp only [List.length_cons] at h
        omega
      obtain ⟨hqd, hav, vs, hvs, hp⟩ := ih (m.getRandomQuestion r).2 hlen
      have hstep : m.drawMany (r :: rest) =
          ((m.getRandomQuestion r).1 :: ((m.getRandomQuestion r).2.drawMany rest).1,
           ((m.getRandomQuestion r).2.drawMany rest).2) := rfl
      refine ⟨?_, ?_, q :: vs, ?_, ?_⟩
      · rw [hstep, hqd, getRandomQuestion_quizData]
      · rw [hstep]
        exact hav
      · rw [hstep]
        simp only [List.map_cons]
        rw [hq, hvs]
      · exact (hp.cons q).trans hperm

/-- After the pool has been emptied, the next draw behaves exactly like
a draw from a freshly initialized manager: the pool resets to the full
set first. -/
theorem getRandomQuestion_reset (d : List QuizData) (r : Nat) :
    QuizDataManager.getRandomQuestion ⟨d, []⟩ r =
    QuizDataManager.getRandomQuestion ⟨d, d⟩ r := by
  cases d <;> rfl

/-- C5: starting from a full pool of N distinct questions, N draws with
no intervening reset return N questions that are a permutation of the
pool (hence pairwise distinct, no duplicates), the pool is then empty,
and the (N+1)-th draw behaves exactly like a draw from a freshly reset
full pool, returning one of the original questions. -/
theorem quiz_pool_draw_without_replacement (qs : List QuizData)
    (rs : List Nat) (r : Nat)
    (h0 : qs ≠ []) (h1 : qs.Nodup) (h2 : rs.length = qs.length) :
    (∃ vs : List QuizData,
        (QuizDataManager.drawMany ⟨qs, qs⟩ rs).1 = vs.map some ∧
        vs.Nodup ∧ vs.Perm qs) ∧
    QuizDataManager.getRandomQuestion
        (QuizDataManager.drawMany ⟨qs, qs⟩ rs).2 r =
      QuizDataManager.getRandomQuestion ⟨qs, qs⟩ r ∧
    ∃ q, q ∈ qs ∧
      (QuizDataManager.getRandomQuestion
        (QuizDataManager.drawMany ⟨qs, qs⟩ rs).2 r).1 = some q := by
  obtain ⟨hqd, hav, vs, hvs, hp⟩ :=
    drawMany_exhausts rs ⟨qs, qs⟩ h2.symm
  have hqd' : (QuizDataManager.drawMany ⟨qs, qs⟩ rs).2.quizData = qs := hqd
  have hm : (QuizDataManager.drawMany ⟨qs, qs⟩ rs).2 =
      (⟨qs, []⟩ : QuizDataManager) := by
    calc (QuizDataManager.drawMany ⟨qs, qs⟩ rs).2 =
        ⟨(QuizDataManager.drawMany ⟨qs, qs⟩ rs).2.quizData,
         (QuizDataManager.drawMany ⟨qs, qs⟩ rs).2.availableQuestions⟩ := rfl
      _ = (⟨qs, []⟩ : QuizDataManager) := by rw [hqd', hav]
  obtain ⟨q, hq1, hq2⟩ := getRandomQuestion_perm ⟨qs, qs⟩ r h0
  refine ⟨⟨vs, hvs, hp.nodup_iff.mpr h1, hp⟩, ?_, ?_⟩
  · rw [hm, getRandomQuestion_reset]
  · refine ⟨q, hq2.subset (List.mem_cons_self _ _), ?_⟩
    rw [hm, getRandomQuestion_reset]
    exact hq1

/-- Witness for C5: a pool of two distinct questions, oracle indices 0
then 0, and a further draw with oracle 0. -/
theorem quiz_pool_draw_without_replacement_witness :
    (∃ vs : List QuizData,
        (QuizDataManager.drawMany
          ⟨[{ question := "q1", choices := ["a"], answer := "a", category := none },
            { question := "q2", choices := ["b"], answer := "b", category := none }],
           [{ question := "q1", choices := ["a"], answer := "a", category := none },
            { question := "q2", choices := ["b"], answer := "b", category := none }]⟩
          [0, 0]).1 = vs.map some ∧
        vs.Nodup ∧
        vs.Perm
          [{ question := "q1", choices := ["a"], answer := "a", category := none },
           { question := "q2", choices := ["b"], answer := "b", category := none }]) ∧
    QuizDataManager.getRandomQuestion
        (QuizDataManager.drawMany
          ⟨[{ question := "q1", choices := ["a"], answer := "a", category := none },
            { question := "q2", choices := ["b"], answer := "b", category := none }],
           [{ question := "q1", choices := ["a"], answer := "a", category := none },
            { question := "q2", choices := ["b"], answer := "b", category := none }]⟩
          [0, 0]).2 0 =
      QuizDataManager.getRandomQuestion
        ⟨[{ question := "q1", choices := ["a"], answer := "a", category := none },
          { question := "q2", choices := ["b"], answer := "b", category := none }],
         [{ question := "q1", choices := ["a"], answer := "a", category := none },
          { question := "q2", choices := ["b"], answer := "b", category := none }]⟩ 0 ∧
    ∃ q, q ∈
        [{ question := "q1", choices := ["a"], answer := "a", category := none },
         { question := "q2", choices := ["b"], answer := "b", category := none }] ∧
      (QuizDataManager.getRandomQuestion
        (QuizDataManager.drawMany
          ⟨[{ question := "q1", choices := ["a"], answer := "a", category := none },
            { question := "q2", choices := ["b"], answer := "b", category := none }],
           [{ question := "q1", choices := ["a"], answer := "a", category := none },
            { question := "q2", choices := ["b"], answer := "b", category := none }]⟩
          [0, 0]).2 0).1 = some q :=
  quiz_pool_draw_without_replacement _ [0, 0] 0
    (by decide) (by decide) (by decide)
